import Mathlib

/-
Verification of the opal-safe-code-generator repository: a shallow embedding of
the generated-code review frontend (src/frontend) together with a model of the
validation/scoring/review engine described by the specification, and theorems
settling the frozen claims about them.
-/

namespace Opal

/-- Lifecycle status of a generated-code record.
Source: src/frontend/src/types/index.ts line 71,
`CodeStatus` as the union of "generated", "reviewed", "approved", "rejected", "deployed". -/
inductive CodeStatus where
  | generated
  | reviewed
  | approved
  | rejected
  | deployed
deriving DecidableEq

/-- The string stored in the `status` field of a record for each `CodeStatus` value,
as in the union type of src/frontend/src/types/index.ts line 71. -/
def codeStatusStr : CodeStatus → String
  | .generated => "generated"
  | .reviewed => "reviewed"
  | .approved => "approved"
  | .rejected => "rejected"
  | .deployed => "deployed"

/-- A generated-code record as the frontend sees it.
Source: the `GeneratedCode` interface of src/frontend/src/types/index.ts
lines 183-207, restricted to the fields the frontend components read, plus the
`requires_review`, `selector_source` and `selector_used` fields read by
src/frontend/src/components/admin/ReviewCodeModal.tsx lines 190-199 and
src/unnamed/part_003 line 213. -/
structure GeneratedCode where
  id : Nat
  brand_id : Nat
  generated_code : String
  confidence_score : Option ℚ
  validation_status : String
  status : CodeStatus
  requires_review : Bool
  selector_source : Option String
  selector_used : Option String
  reviewer_notes : Option String
  rejection_reason : Option String
deriving DecidableEq

/-- The status filter of the My Requests view.
Source: src/unnamed/part_011 line 15,
the `useState` filter over "all", "pending", "approved", "rejected". -/
inductive RequestFilter where
  | all
  | pending
  | approved
  | rejected
deriving DecidableEq

/-- The string value of each filter tab of the My Requests view
(src/unnamed/part_011 line 15). -/
def requestFilterStr : RequestFilter → String
  | .all => "all"
  | .pending => "pending"
  | .approved => "approved"
  | .rejected => "rejected"

/-- Whether a record passes the selected filter of the My Requests view.
Source: src/unnamed/part_011 lines 28-32: `all` matches everything, `pending`
matches a status of "generated" or "reviewed", and any other filter
matches by `r.status === filter`. -/
def matchesFilter (f : RequestFilter) (r : GeneratedCode) : Bool :=
  match f with
  | .all => true
  | .pending => codeStatusStr r.status == "generated" || codeStatusStr r.status == "reviewed"
  | .approved => codeStatusStr r.status == requestFilterStr .approved
  | .rejected => codeStatusStr r.status == requestFilterStr .rejected

/-- The list of records displayed under a filter in the My Requests view
(src/unnamed/part_011 line 28, `allRequests.filter(...)`). -/
def filteredRequests (f : RequestFilter) (l : List GeneratedCode) : List GeneratedCode :=
  l.filter (matchesFilter f)

/-- The pending-tab count of the My Requests view (src/unnamed/part_011
line 23). -/
def pendingCount (l : List GeneratedCode) : Nat :=
  (l.filter (fun r =>
    codeStatusStr r.status == "generated" || codeStatusStr r.status == "reviewed")).length

/-- The approved-tab count of the My Requests view (src/unnamed/part_011
line 24). -/
def approvedCount (l : List GeneratedCode) : Nat :=
  (l.filter (fun r => codeStatusStr r.status == "approved")).length

/-- The rejected-tab count of the My Requests view (src/unnamed/part_011
line 25). -/
def rejectedCount (l : List GeneratedCode) : Nat :=
  (l.filter (fun r => codeStatusStr r.status == "rejected")).length

/-- C9: In the My Requests view a record is counted and displayed as pending
iff its status is `generated` or `reviewed`, the approved and rejected filters
match exactly records of that status, and each tab count agrees with the list
that the corresponding filter displays. -/
theorem myRequests_filter_counts :
    (∀ r : GeneratedCode,
      (matchesFilter .pending r = true ↔ (r.status = .generated ∨ r.status = .reviewed))
      ∧ (matchesFilter .approved r = true ↔ r.status = .approved)
      ∧ (matchesFilter .rejected r = true ↔ r.status = .rejected))
    ∧ (∀ l : List GeneratedCode,
      pendingCount l = (filteredRequests .pending l).length
      ∧ approvedCount l = (filteredRequests .approved l).length
      ∧ rejectedCount l = (filteredRequests .rejected l).length) := by
  constructor
  · intro r
    refine ⟨?_, ?_, ?_⟩ <;>
      cases h : r.status <;>
        simp [matchesFilter, codeStatusStr, requestFilterStr, h]
  · intro l
    refine ⟨rfl, rfl, rfl⟩

/-- Whether the mandatory-human-review warning banner of the review modal is
rendered for a (possibly absent) record.
Source: src/frontend/src/components/admin/ReviewCodeModal.tsx line 190,
the conjunction of `requires_review` and a `selector_source` equal to "user_provided". -/
def showUserProvidedBanner : Option GeneratedCode → Bool
  | none => false
  | some c => c.requires_review && (c.selector_source == some "user_provided")

/-- C8, counterexample: a record whose selector is flagged `user_provided` but
whose `requires_review` field is false does not get the banner, so the banner
is not shown exactly when the record carries the `user_provided` selector
flag. -/
theorem banner_not_driven_by_flag_alone :
    ({ id := 1, brand_id := 1, generated_code := "var x = 1", confidence_score := some (9/10),
       validation_status := "passed", status := .generated, requires_review := false,
       selector_source := some "user_provided", selector_used := some ".hero-cta",
       reviewer_notes := none, rejection_reason := none : GeneratedCode }).selector_source
        = some "user_provided"
    ∧ showUserProvidedBanner
      (some { id := 1, brand_id := 1, generated_code := "var x = 1", confidence_score := some (9/10),
              validation_status := "passed", status := .generated, requires_review := false,
              selector_source := some "user_provided", selector_used := some ".hero-cta",
              reviewer_notes := none, rejection_reason := none }) = false := by
  constructor
  · rfl
  · rfl

/-- C8, amended: the banner is shown exactly when the field
`requires_review` of the record is set and its `selector_source` equals
`user_provided`; it is independent of the confidence score of the record, of its
validation status, and of which selector was used. -/
theorem banner_iff_requires_review_and_user_provided :
    (∀ c : GeneratedCode,
      showUserProvidedBanner (some c) = true
        ↔ (c.requires_review = true ∧ c.selector_source = some "user_provided"))
    ∧ (∀ (c : GeneratedCode) (q : Option ℚ),
      showUserProvidedBanner (some { c with confidence_score := q })
        = showUserProvidedBanner (some c))
    ∧ (∀ (c : GeneratedCode) (v : String),
      showUserProvidedBanner (some { c with validation_status := v })
        = showUserProvidedBanner (some c))
    ∧ (∀ (c : GeneratedCode) (u : Option String),
      showUserProvidedBanner (some { c with selector_used := u })
        = showUserProvidedBanner (some c)) := by
  refine ⟨?_, fun c q => rfl, fun c v => rfl, fun c u => rfl⟩
  intro c
  simp [showUserProvidedBanner]

/-! ### Escape-sequence normalisation in the code viewers (C10) -/

/-- The single-quote character (codepoint 39). -/
def singleQuoteChar : Char := Char.ofNat 39

/-- The backtick character (codepoint 96), the template-literal quote. -/
def backtickChar : Char := Char.ofNat 96

/-- The opening-brace character (codepoint 123). -/
def openBraceChar : Char := Char.ofNat 123

/-- Left-to-right, non-overlapping replacement of the two-character pattern
`a b` by the single character `rep`, the semantics of a JavaScript
`str.replace(/ab/g, rep)` call for a two-character pattern. -/
def replace2 (a b rep : Char) : List Char → List Char
  | [] => []
  | [c] => [c]
  | c :: d :: rest =>
    if c = a ∧ d = b then rep :: replace2 a b rep rest
    else c :: replace2 a b rep (d :: rest)

/-- The chained replacements of `normalizeCodeString`, in source order:
backslash-n, backslash-t, backslash-r, backslash-double-quote,
backslash-single-quote, then backslash-backslash.
Source: src/frontend/src/pages/GeneratedCode/GeneratedCodeTable.tsx
lines 33-39. -/
def normalizeChars (l : List Char) : List Char :=
  replace2 '\\' '\\' '\\'
    (replace2 '\\' singleQuoteChar singleQuoteChar
      (replace2 '\\' '"' '"'
        (replace2 '\\' 'r' '\r'
          (replace2 '\\' 't' '\t'
            (replace2 '\\' 'n' '\n' l)))))

/-- The text that the generated-code table viewer displays and copies for a
stored code string.
Source: src/frontend/src/pages/GeneratedCode/GeneratedCodeTable.tsx
lines 28-40 (`normalizeCodeString`): empty input short-circuits to the empty
string, otherwise the six escape sequences are replaced in order. -/
def normalizeCodeString (code : String) : String :=
  if code = "" then "" else String.mk (normalizeChars code.toList)

/-- The escape-replacement phase of the chat `CodeBlock` viewer, in source
order: backslash-n, backslash-t, backslash-r, backslash-single-quote,
backslash-double-quote — and no backslash-backslash replacement.
Source: src/unnamed/part_017 lines 41-47. -/
def codeBlockEscapeChars (l : List Char) : List Char :=
  replace2 '\\' '"' '"'
    (replace2 '\\' singleQuoteChar singleQuoteChar
      (replace2 '\\' 'r' '\r'
        (replace2 '\\' 't' '\t'
          (replace2 '\\' 'n' '\n' l))))

/-- Whether a character is trimmed by a JavaScript `String.prototype.trim`
call (the common whitespace characters). -/
def isTrimmedSpace (c : Char) : Bool :=
  c = ' ' || c = '\t' || c = '\n' || c = '\r'

/-- Whether the `CodeBlock` viewer first attempts a JSON unwrap of the stored
string: its trimmed form starts with an opening brace or an opening bracket,
i.e. the first non-whitespace character is one of the two.
Source: src/unnamed/part_017 line 25. When this is false the JSON branch is
skipped and the displayed text is exactly the escape-replacement phase. -/
def looksLikeJson (code : String) : Bool :=
  match code.toList.dropWhile isTrimmedSpace with
  | [] => false
  | c :: _ => c = openBraceChar || c = '['

/-- The text that the chat `CodeBlock` viewer displays and copies for a stored
code string that does not enter the JSON-unwrap branch.
Source: src/unnamed/part_017 lines 19-50 (`processedCode`) restricted to
inputs with `looksLikeJson = false`, where lines 25-38 leave the string
unchanged and lines 41-47 apply the escape replacements. -/
def codeBlockDisplay (code : String) : String :=
  String.mk (codeBlockEscapeChars code.toList)

/-- C10, counterexample: the stored string `a\\b` (a, backslash, backslash, b)
does not enter the `CodeBlock` JSON branch and is displayed unchanged by
`CodeBlock`; its literal backslash-backslash sequence is not replaced by a
single backslash, so not every viewer replaces all five escape sequences. -/
theorem codeBlock_keeps_double_backslash :
    looksLikeJson (String.mk ['a', '\\', '\\', 'b']) = false
    ∧ codeBlockDisplay (String.mk ['a', '\\', '\\', 'b']) = String.mk ['a', '\\', '\\', 'b']
    ∧ String.mk ['a', '\\', '\\', 'b'] ≠ String.mk ['a', '\\', 'b'] := by
  refine ⟨by decide, rfl, by decide⟩

/-- C10, amended: the `normalizeCodeString` transform of the table viewer replaces each of the
two-character sequences backslash-n, backslash-t, backslash-r,
backslash-double-quote, backslash-single-quote and backslash-backslash by the
corresponding single character; the chat `CodeBlock` viewer replaces the first
five but leaves backslash-backslash unchanged; and for some stored code the
displayed/copied text differs from the stored text (the stored string itself
is not modified: both transforms are pure functions of it). -/
theorem viewers_escape_replacement :
    normalizeCodeString (String.mk ['a', '\\', 'n', 'b']) = String.mk ['a', '\n', 'b']
    ∧ normalizeCodeString (String.mk ['a', '\\', 't', 'b']) = String.mk ['a', '\t', 'b']
    ∧ normalizeCodeString (String.mk ['a', '\\', 'r', 'b']) = String.mk ['a', '\r', 'b']
    ∧ normalizeCodeString (String.mk ['a', '\\', '"', 'b']) = String.mk ['a', '"', 'b']
    ∧ normalizeCodeString (String.mk ['a', '\\', singleQuoteChar, 'b'])
        = String.mk ['a', singleQuoteChar, 'b']
    ∧ normalizeCodeString (String.mk ['a', '\\', '\\', 'b']) = String.mk ['a', '\\', 'b']
    ∧ codeBlockDisplay (String.mk ['a', '\\', 'n', 'b']) = String.mk ['a', '\n', 'b']
    ∧ codeBlockDisplay (String.mk ['a', '\\', 't', 'b']) = String.mk ['a', '\t', 'b']
    ∧ codeBlockDisplay (String.mk ['a', '\\', 'r', 'b']) = String.mk ['a', '\r', 'b']
    ∧ codeBlockDisplay (String.mk ['a', '\\', '"', 'b']) = String.mk ['a', '"', 'b']
    ∧ codeBlockDisplay (String.mk ['a', '\\', singleQuoteChar, 'b'])
        = String.mk ['a', singleQuoteChar, 'b']
    ∧ codeBlockDisplay (String.mk ['a', '\\', '\\', 'b']) = String.mk ['a', '\\', '\\', 'b']
    ∧ normalizeCodeString (String.mk ['a', '\\', 'n', 'b']) ≠ String.mk ['a', '\\', 'n', 'b'] := by
  refine ⟨rfl, rfl, rfl, rfl, rfl, rfl, rfl, rfl, rfl, rfl, rfl, rfl, ?_⟩
  decide

/-! ### Review state machine and audit trail (C1, C2, C7)

The ReviewStateMachine and AuditTrail components run in the backend, which is
not part of the sources under src/ (only their frontend callers are, e.g.
src/frontend/src/hooks/useApi.ts lines 292-308); they are modelled from the
specification, §4.5 ReviewStateMachine, §7 error handling and the
AuditLogEntry data model of §3. -/

/-- Modelled from the spec: the error outcomes of a review transition, for the
missing backend ReviewStateMachine. `stateTransition` is the
`StateTransitionError` of the spec (illegal edge), `missingField` the
rejection of a request lacking a required `reviewer_id`/`rejection_reason`,
and `auditWriteFailure` the `AuditWriteFailure` of the spec. -/
inductive TransitionError where
  | stateTransition
  | missingField
  | auditWriteFailure
deriving DecidableEq

/-- Modelled from the spec: one entry of the missing backend AuditTrail ledger
(§3 AuditLogEntry): `{generated_code_id, actor_id, action, previous_status,
new_status, notes?}`. -/
structure AuditLogEntry where
  generated_code_id : Nat
  actor_id : Nat
  action : CodeStatus
  previous_status : CodeStatus
  new_status : CodeStatus
  notes : Option String
deriving DecidableEq

/-- Modelled from the spec: the review-relevant state of one generated-code
record in the missing backend — its id, current lifecycle status, and the
audit-log entries recorded for it. -/
structure ReviewState where
  codeId : Nat
  status : CodeStatus
  audit : List AuditLogEntry
deriving DecidableEq

/-- Modelled from the spec: the legal lifecycle edges of the missing backend
ReviewStateMachine (§4.5): `generated→reviewed`, `generated→approved`,
`generated→rejected`, `reviewed→approved`, `reviewed→rejected`,
`approved→deployed`. -/
def legalEdge : CodeStatus → CodeStatus → Bool
  | .generated, .reviewed => true
  | .generated, .approved => true
  | .generated, .rejected => true
  | .reviewed, .approved => true
  | .reviewed, .rejected => true
  | .approved, .deployed => true
  | _, _ => false

/-- The legal-edge list as the specification enumerates it. -/
def legalEdgeList : List (CodeStatus × CodeStatus) :=
  [(.generated, .reviewed), (.generated, .approved), (.generated, .rejected),
   (.reviewed, .approved), (.reviewed, .rejected), (.approved, .deployed)]

/-- Modelled from the spec: the required-field preconditions of the missing
backend ReviewStateMachine (§4.5): `approved` requires a `reviewer_id`;
`rejected` requires a `reviewer_id` and a non-empty `rejection_reason`;
`reviewed` and `deployed` have no required fields. -/
def requiredFieldsOk (target : CodeStatus) (reviewerId : Option Nat)
    (rejectionReason : Option String) : Bool :=
  match target with
  | .approved => reviewerId.isSome
  | .rejected =>
    reviewerId.isSome &&
      (match rejectionReason with
       | some r => r != ""
       | none => false)
  | _ => true

/-- Modelled from the spec: the `transition()` operation of the missing
backend ReviewStateMachine with its AuditTrail write (§4.5, §5, §6, §7).
An illegal edge fails with `StateTransitionError`; missing required fields
fail the request; otherwise the status update and the append of exactly one
audit entry happen as one atomic unit, represented by the `auditWriteOk`
flag: when the audit write fails, the whole transition rolls back and the
returned state is the input state. The returned pair is the (possibly
unchanged) stored record state and the error, if any. -/
def transition (s : ReviewState) (actorId : Nat) (target : CodeStatus)
    (reviewerId : Option Nat) (rejectionReason : Option String)
    (notes : Option String) (auditWriteOk : Bool) :
    ReviewState × Option TransitionError :=
  if legalEdge s.status target = false then
    (s, some .stateTransition)
  else if requiredFieldsOk target reviewerId rejectionReason = false then
    (s, some .missingField)
  else if auditWriteOk = false then
    (s, some .auditWriteFailure)
  else
    ({ s with
        status := target,
        audit := s.audit ++
          [{ generated_code_id := s.codeId, actor_id := actorId, action := target,
             previous_status := s.status, new_status := target, notes := notes }] },
     none)

/-- C1: a requested transition is accepted only if the current/requested pair
is a legal edge; the legal edges are exactly the six enumerated pairs; and any
other requested transition fails with `StateTransitionError`, leaving both the
status of the record and its audit log unchanged. -/
theorem transition_legal_edges :
    (∀ a b : CodeStatus, legalEdge a b = true ↔ (a, b) ∈ legalEdgeList)
    ∧ (∀ (s : ReviewState) (actorId : Nat) (target : CodeStatus)
        (reviewerId : Option Nat) (rejectionReason notes : Option String)
        (auditWriteOk : Bool),
      ((transition s actorId target reviewerId rejectionReason notes auditWriteOk).2 = none →
        legalEdge s.status target = true)
      ∧ (legalEdge s.status target = false →
        transition s actorId target reviewerId rejectionReason notes auditWriteOk
          = (s, some .stateTransition))) := by
  constructor
  · intro a b
    cases a <;> cases b <;> simp [legalEdge, legalEdgeList]
  · intro s actorId target reviewerId rejectionReason notes auditWriteOk
    constructor
    · intro hnone
      by_contra hlegal
      rw [Bool.not_eq_true] at hlegal
      simp [transition, hlegal] at hnone
    · intro hlegal
      simp [transition, hlegal]

/-- C1, witness: from a `rejected` record, a requested transition to
`approved` is not a legal edge and fails with `StateTransitionError`, leaving
the record (status and audit log) unchanged. -/
theorem transition_legal_edges_witness :
    transition { codeId := 7, status := .rejected, audit := [] } 1 .approved
        (some 1) none none true
      = ({ codeId := 7, status := .rejected, audit := [] }, some .stateTransition) :=
  (transition_legal_edges.2 { codeId := 7, status := .rejected, audit := [] }
    1 .approved (some 1) none none true).2 (by decide)

/-- C2: every accepted transition appends exactly one audit entry, whose
`previous_status` and `new_status` are the actual old and new status of the
record; when the audit write fails the status change is rolled back (the
stored state is unchanged); and the audit log is append-only — whatever the
outcome, the new audit log extends the old one. -/
theorem transition_audit_atomic :
    ∀ (s : ReviewState) (actorId : Nat) (target : CodeStatus)
      (reviewerId : Option Nat) (rejectionReason notes : Option String)
      (auditWriteOk : Bool),
    ((transition s actorId target reviewerId rejectionReason notes auditWriteOk).2 = none →
      (transition s actorId target reviewerId rejectionReason notes auditWriteOk).1.status
          = target
      ∧ (transition s actorId target reviewerId rejectionReason notes auditWriteOk).1.audit
          = s.audit ++
            [{ generated_code_id := s.codeId, actor_id := actorId, action := target,
               previous_status := s.status, new_status := target, notes := notes }])
    ∧ (auditWriteOk = false →
      (transition s actorId target reviewerId rejectionReason notes auditWriteOk).1 = s)
    ∧ (∃ t : List AuditLogEntry,
      (transition s actorId target reviewerId rejectionReason notes auditWriteOk).1.audit
        = s.audit ++ t) := by
  intro s actorId target reviewerId rejectionReason notes auditWriteOk
  refine ⟨?_, ?_, ?_⟩
  · intro hnone
    unfold transition at hnone ⊢
    split at hnone
    · simp at hnone
    · rename_i h1
      split at hnone
      · simp at hnone
      · rename_i h2
        split at hnone
        · simp at hnone
        · rename_i h3
          simp [h1, h2, h3]
  · intro hfail
    unfold transition
    split
    · rfl
    · split
      · rfl
      · simp [hfail]
  · unfold transition
    split
    · exact ⟨[], by simp⟩
    · split
      · exact ⟨[], by simp⟩
      · split
        · exact ⟨[], by simp⟩
        · exact ⟨_, rfl⟩

/-- C2, witness: an accepted `generated→approved` transition sets the status
to `approved` and appends exactly the audit entry recording the change from
`generated` to `approved`. -/
theorem transition_audit_atomic_witness :
    (transition { codeId := 5, status := .generated, audit := [] } 2 .approved
        (some 9) none (some "ok") true).1.status = .approved
    ∧ (transition { codeId := 5, status := .generated, audit := [] } 2 .approved
        (some 9) none (some "ok") true).1.audit
      = [] ++
        [{ generated_code_id := 5, actor_id := 2, action := .approved,
           previous_status := .generated, new_status := .approved, notes := some "ok" }] :=
  (transition_audit_atomic { codeId := 5, status := .generated, audit := [] }
    2 .approved (some 9) none (some "ok") true).1 (by decide)

/-- C7: a transition to `rejected` is accepted only when a `reviewer_id` and a
non-empty `rejection_reason` are supplied; a rejection request whose
`rejection_reason` is absent or empty fails and leaves the record
unchanged. -/
theorem rejection_requires_reason :
    ∀ (s : ReviewState) (actorId : Nat) (reviewerId : Option Nat)
      (rejectionReason notes : Option String) (auditWriteOk : Bool),
    ((transition s actorId .rejected reviewerId rejectionReason notes auditWriteOk).2 = none →
      reviewerId.isSome = true
      ∧ ∃ r : String, rejectionReason = some r ∧ r ≠ "")
    ∧ (rejectionReason = none ∨ rejectionReason = some "" →
      (transition s actorId .rejected reviewerId rejectionReason notes auditWriteOk).1 = s
      ∧ (transition s actorId .rejected reviewerId rejectionReason notes auditWriteOk).2
          ≠ none) := by
  intro s actorId reviewerId rejectionReason notes auditWriteOk
  constructor
  · intro hnone
    unfold transition at hnone
    split at hnone
    · simp at hnone
    · rename_i hfields
      split at hnone
      · simp at hnone
      · rename_i hok
        rw [Bool.not_eq_false] at hok
        rcases reviewerId with _ | rid
        · simp [requiredFieldsOk] at hok
        · rcases rejectionReason with _ | r
          · simp [requiredFieldsOk] at hok
          · simp only [requiredFieldsOk, Bool.and_eq_true, bne_iff_ne, ne_eq] at hok
            exact ⟨by simp, r, rfl, hok.2⟩
  · intro hbad
    have hfields : requiredFieldsOk .rejected reviewerId rejectionReason = false := by
      rcases hbad with h | h <;> subst h <;>
        cases reviewerId <;> simp [requiredFieldsOk]
    unfold transition
    rw [hfields]
    split
    · exact ⟨rfl, by simp⟩
    · simp

/-- C7, witness: from a `generated` record, a rejection request with a
reviewer but no `rejection_reason` fails and leaves the record unchanged,
while an accepted rejection did supply a non-empty reason. -/
theorem rejection_requires_reason_witness :
    (transition { codeId := 3, status := .generated, audit := [] } 1 .rejected
        (some 4) none none true).1 = { codeId := 3, status := .generated, audit := [] }
    ∧ (transition { codeId := 3, status := .generated, audit := [] } 1 .rejected
        (some 4) none none true).2 ≠ none :=
  (rejection_requires_reason { codeId := 3, status := .generated, audit := [] }
    1 (some 4) none none true).2 (Or.inl rfl)

/-! ### RuleEngine (C4)

The RuleEngine/PatternMatcher components run in the backend, which is not
part of the sources under src/; they are modelled from the specification,
§4.1 RuleEngine and §3 CodeRule. Scores are rationals; the weights 0.4, 0.3,
0.3 are written 2/5, 3/10, 3/10. -/

/-- The four rule types.
Source: src/frontend/src/types/index.ts lines 44-49 (`enum RuleType`),
matching §3 of the specification. -/
inductive RuleType where
  | forbidden_pattern
  | required_pattern
  | max_length
  | min_length
deriving DecidableEq

/-- A brand coding rule: type, content and priority.
Source: src/frontend/src/types/index.ts lines 158-166 (`CodeRule`),
restricted to the fields the engine reads; §3 constrains priority to
`[1,10]`. -/
structure CodeRule where
  rule_type : RuleType
  rule_content : String
  priority : Nat
deriving DecidableEq

/-- Whether `pat` occurs as a contiguous run at some position of `l`. -/
def occursInChars (pat : List Char) : List Char → Bool
  | [] => pat.isPrefixOf []
  | c :: cs => pat.isPrefixOf (c :: cs) || occursInChars pat cs

/-- Whether `pat` occurs as a substring of `code`. -/
def occursIn (pat code : String) : Bool :=
  occursInChars pat.toList code.toList

/-- Modelled from the spec: the missing backend PatternMatcher verdict for one
rule (§4.1): `forbidden_pattern` is violated iff the content occurs in the
code, `required_pattern` iff it does not, `max_length`/`min_length` compare
the code length against the numeric content. A malformed rule (length rule
whose content is not a number) yields `none` — skipped with a warning and
excluded from scoring, per §4.1/§7. -/
def ruleViolated (code : String) (r : CodeRule) : Option Bool :=
  match r.rule_type with
  | .forbidden_pattern => some (occursIn r.rule_content code)
  | .required_pattern => some (!occursIn r.rule_content code)
  | .max_length => (r.rule_content.toNat?).map (fun n => decide (n < code.length))
  | .min_length => (r.rule_content.toNat?).map (fun n => decide (code.length < n))

/-- The active rules that actually participate in scoring (the malformed ones
are skipped, per §4.1). -/
def scoredRules (code : String) (rules : List CodeRule) : List CodeRule :=
  rules.filter (fun r => (ruleViolated code r).isSome)

/-- The rules the code violates. -/
def violatedRulesOf (code : String) (rules : List CodeRule) : List CodeRule :=
  rules.filter (fun r => ruleViolated code r == some true)

/-- The priority of a rule as a rational. -/
def priorityQ (r : CodeRule) : ℚ :=
  (r.priority : ℚ)

/-- The sum of the priorities of a list of rules. -/
def prioritySum (l : List CodeRule) : ℚ :=
  (l.map priorityQ).sum

/-- Modelled from the spec: the per-violation deduction of the missing backend
RuleEngine (§4.1), `0.4 * (priority / sum_of_all_active_priorities)`. -/
def rulePenalty (total : ℚ) (r : CodeRule) : ℚ :=
  2/5 * priorityQ r / total

/-- Modelled from the spec: the rule sub-score of the missing backend
RuleEngine (§4.1): start at the full weight 0.4, subtract the penalty of each
violated rule, floor at 0. -/
def ruleScore (code : String) (rules : List CodeRule) : ℚ :=
  max 0 (2/5 -
    ((violatedRulesOf code rules).map
      (rulePenalty (prioritySum (scoredRules code rules)))).sum)

/-- Modelled from the spec: the missing backend RuleEngine contract (§4.1),
`evaluate(code, rules) -> (violations, rule_score)`; a violation is reported
by its rule content. -/
def evaluate (code : String) (rules : List CodeRule) : List String × ℚ :=
  ((violatedRulesOf code rules).map (fun r => r.rule_content), ruleScore code rules)

/-- C4: for rules with priorities in the legal range, the rule score lies in
`[0, 0.4]`; with zero active rules the engine returns score `0.4` and no
violations; and the score equals `0.4` exactly when there are zero active
rules or zero violations. -/
theorem ruleEngine_score (code : String) (rules : List CodeRule)
    (hp : ∀ r ∈ rules, 1 ≤ r.priority) :
    (0 ≤ (evaluate code rules).2 ∧ (evaluate code rules).2 ≤ 2/5)
    ∧ (rules = [] → evaluate code rules = ([], 2/5))
    ∧ ((evaluate code rules).2 = 2/5 ↔ rules = [] ∨ (evaluate code rules).1 = []) := by
  have htot : 0 ≤ prioritySum (scoredRules code rules) := by
    apply List.sum_nonneg
    intro x hx
    obtain ⟨r, _, rfl⟩ := List.mem_map.1 hx
    exact Nat.cast_nonneg _
  have hterm : ∀ x ∈ (violatedRulesOf code rules).map
      (rulePenalty (prioritySum (scoredRules code rules))), 0 ≤ x := by
    intro x hx
    obtain ⟨r, _, rfl⟩ := List.mem_map.1 hx
    unfold rulePenalty
    apply div_nonneg _ htot
    have : (0:ℚ) ≤ priorityQ r := Nat.cast_nonneg _
    nlinarith
  have hpen : 0 ≤ ((violatedRulesOf code rules).map
      (rulePenalty (prioritySum (scoredRules code rules)))).sum :=
    List.sum_nonneg hterm
  refine ⟨⟨le_max_left _ _, ?_⟩, ?_, ?_, ?_⟩
  · exact max_le (by norm_num) (by linarith)
  · intro h
    subst h
    simp [evaluate, ruleScore, violatedRulesOf, scoredRules, prioritySum]
    norm_num
  · intro h25
    by_contra hcon
    push_neg at hcon
    obtain ⟨hrules, hviol⟩ := hcon
    have hVne : violatedRulesOf code rules ≠ [] := by
      intro hV
      apply hviol
      simp [evaluate, hV]
    obtain ⟨r, hrV⟩ := List.exists_mem_of_ne_nil _ hVne
    have hrRules : r ∈ rules := (List.mem_filter.1 hrV).1
    have hrTrue : ruleViolated code r = some true := by
      have := (List.mem_filter.1 hrV).2
      exact beq_iff_eq.1 this
    have hrS : r ∈ scoredRules code rules := by
      apply List.mem_filter.2
      exact ⟨hrRules, by simp [hrTrue]⟩
    have hr1 : (1:ℚ) ≤ priorityQ r := by
      have := hp r hrRules
      unfold priorityQ
      exact_mod_cast this
    have hrT : priorityQ r ≤ prioritySum (scoredRules code rules) := by
      apply List.single_le_sum
      · intro x hx
        obtain ⟨q, _, rfl⟩ := List.mem_map.1 hx
        exact Nat.cast_nonneg _
      · exact List.mem_map_of_mem _ hrS
    have hT1 : (1:ℚ) ≤ prioritySum (scoredRules code rules) := le_trans hr1 hrT
    have hT0 : (0:ℚ) < prioritySum (scoredRules code rules) := by linarith
    have hterm_pos : 0 < rulePenalty (prioritySum (scoredRules code rules)) r := by
      unfold rulePenalty
      positivity
    have hterm_le : rulePenalty (prioritySum (scoredRules code rules)) r
        ≤ ((violatedRulesOf code rules).map
          (rulePenalty (prioritySum (scoredRules code rules)))).sum :=
      List.single_le_sum hterm _ (List.mem_map_of_mem _ hrV)
    have hlt : (evaluate code rules).2 < 2/5 := by
      show ruleScore code rules < 2/5
      unfold ruleScore
      apply max_lt (by norm_num)
      linarith
    exact absurd h25 (ne_of_lt hlt)
  · intro h
    rcases h with h | h
    · subst h
      simp [evaluate, ruleScore, violatedRulesOf, scoredRules, prioritySum]
      norm_num
    · have hV : violatedRulesOf code rules = [] := by
        have : (violatedRulesOf code rules).map (fun r => r.rule_content) = [] := h
        exact List.map_eq_nil_iff.1 this
      show ruleScore code rules = 2/5
      unfold ruleScore
      rw [hV]
      simp
      norm_num

/-- C4, witness: a single active `required_pattern` rule of priority 3 that
the code violates gives a score of 0 (the full weight is deducted), the
bounds hold, and the score is not 0.4 since there is one violation. -/
theorem ruleEngine_score_witness :
    (∀ r ∈ [{ rule_type := RuleType.required_pattern, rule_content := "clickTag",
              priority := 3 : CodeRule }], 1 ≤ r.priority)
    ∧ ((0 ≤ (evaluate "var a = 1"
          [{ rule_type := .required_pattern, rule_content := "clickTag", priority := 3 }]).2
      ∧ (evaluate "var a = 1"
          [{ rule_type := .required_pattern, rule_content := "clickTag", priority := 3 }]).2
        ≤ 2/5)
    ∧ ([{ rule_type := RuleType.required_pattern, rule_content := "clickTag",
          priority := 3 : CodeRule }] = ([] : List CodeRule) →
      evaluate "var a = 1"
          [{ rule_type := .required_pattern, rule_content := "clickTag", priority := 3 }]
        = ([], 2/5))
    ∧ ((evaluate "var a = 1"
          [{ rule_type := .required_pattern, rule_content := "clickTag", priority := 3 }]).2
        = 2/5
      ↔ [{ rule_type := RuleType.required_pattern, rule_content := "clickTag",
           priority := 3 : CodeRule }] = ([] : List CodeRule)
        ∨ (evaluate "var a = 1"
            [{ rule_type := .required_pattern, rule_content := "clickTag",
               priority := 3 }]).1 = [])) :=
  ⟨by decide,
   ruleEngine_score "var a = 1"
     [{ rule_type := .required_pattern, rule_content := "clickTag", priority := 3 }]
     (by decide)⟩

/-! ### SelectorExtractor and SelectorValidator (C5)

These components run in the backend, which is not part of the sources under
src/; they are modelled from the specification, §4.2 SelectorValidator and §3
DOMSelector. -/

/-- Catalog status of a DOM selector.
Source: src/frontend/src/types/index.ts lines 65-69 (`enum SelectorStatus`). -/
inductive SelectorStatus where
  | active
  | inactive
  | deprecated
deriving DecidableEq

/-- A catalog DOM selector.
Source: src/frontend/src/types/index.ts lines 130-139 (`DOMSelector`),
restricted to the fields validation reads. -/
structure DOMSelector where
  selector : String
  page_type : String
  status : SelectorStatus
deriving DecidableEq

/-- The DOM-query call sites whose string-literal argument the extractor
scans for, per §4.2 (the longer `querySelectorAll(` is tried before its
prefix `querySelector(`). -/
def domCallMarkers : List (List Char) :=
  ["querySelectorAll(".toList, "querySelector(".toList,
   "closest(".toList, "matches(".toList]

/-- If one of the markers in the given list starts `l`, drop it and return the
remainder. -/
def dropMarkerAux : List (List Char) → List Char → Option (List Char)
  | [], _ => none
  | m :: ms, l => if m.isPrefixOf l then some (l.drop m.length) else dropMarkerAux ms l

/-- If a DOM-query call-site marker starts `l`, the remainder after it. -/
def dropMarker (l : List Char) : Option (List Char) :=
  dropMarkerAux domCallMarkers l

/-- A quote character tolerated by the extractor: single, double, or
template-literal quoting (§4.2). -/
def isQuoteChar (c : Char) : Bool :=
  c = '"' || c = singleQuoteChar || c = backtickChar

/-- Read the characters of a string literal up to its closing quote `q`;
`none` when the literal is unterminated. -/
def takeLiteral (q : Char) : List Char → Option (List Char × List Char)
  | [] => none
  | c :: cs =>
    if c = q then some ([], cs)
    else (takeLiteral q cs).map (fun p => (c :: p.1, p.2))

/-- Modelled from the spec: the scan of the missing backend SelectorExtractor
(§4.2): walk the code; at a DOM-query call site followed by a quote, collect
the quoted literal and continue after it. The fuel argument only bounds the
recursion and is always given as more than the character count (each step
consumes at least one character), so it never runs out. -/
def extractAux : Nat → List Char → List String
  | 0, _ => []
  | _ + 1, [] => []
  | fuel + 1, c :: cs =>
    match dropMarker (c :: cs) with
    | some rest =>
      match rest with
      | [] => []
      | q :: rest2 =>
        if isQuoteChar q then
          match takeLiteral q rest2 with
          | some (lit, rest3) => String.mk lit :: extractAux fuel rest3
          | none => extractAux fuel rest2
        else extractAux fuel rest
    | none => extractAux fuel cs

/-- Deduplication keeping first occurrences (§4.2 "deduplicate results"). -/
def dedupFirst : List String → List String
  | [] => []
  | a :: rest => a :: (dedupFirst rest).filter (fun b => b != a)

/-- Modelled from the spec: the missing backend SelectorExtractor contract
(§4.2) — the deduplicated DOM-selector literals found in the code. -/
def extractSelectors (code : String) : List String :=
  dedupFirst (extractAux (code.toList.length + 1) code.toList)

/-- Modelled from the spec: a literal is known-valid iff it matches an
`active` catalog selector (§4.2 classification; §3 says `deprecated` and
`inactive` entries are treated as invalid). -/
def knownValid (catalog : List DOMSelector) (sel : String) : Bool :=
  catalog.any (fun d => d.selector == sel && d.status == SelectorStatus.active)

/-- Modelled from the spec: the missing backend SelectorValidator contract
(§4.2), `validate(code, catalog) -> (invalid_selectors, used_selectors,
selector_score)`: full credit 0.3 when nothing was extracted or everything is
known-valid, otherwise `0.3 * (known_valid_count / total_extracted_count)`. -/
def validate (code : String) (catalog : List DOMSelector) :
    List String × List String × ℚ :=
  let used := extractSelectors code
  let invalid := used.filter (fun s => !knownValid catalog s)
  let score : ℚ :=
    if used.isEmpty || invalid.isEmpty then 3/10
    else 3/10 * ((used.filter (knownValid catalog)).length : ℚ) / (used.length : ℚ)
  (invalid, used, score)

/-- C5: the selector score is 0.3 when no selector was extracted or when every
extracted selector is known-valid, and otherwise `0.3 * (known_valid_count /
total_extracted_count)`; in particular, code referencing one known-valid and
one unknown selector scores 0.15 with the unknown selector as the sole
invalid entry. -/
theorem selectorValidator_score :
    (∀ (code : String) (catalog : List DOMSelector),
      (extractSelectors code = [] → (validate code catalog).2.2 = 3/10)
      ∧ ((validate code catalog).1 = [] → (validate code catalog).2.2 = 3/10)
      ∧ ((validate code catalog).1 ≠ [] →
        (validate code catalog).2.2
          = 3/10 * (((extractSelectors code).filter (knownValid catalog)).length : ℚ)
              / ((extractSelectors code).length : ℚ)))
    ∧ validate
        "var a = document.querySelector(\".sel-ok\"); var b = document.querySelector(\".sel-bad\");"
        [{ selector := ".sel-ok", page_type := "pdp", status := .active }]
      = ([".sel-bad"], [".sel-ok", ".sel-bad"], 3/20) := by
  constructor
  · intro code catalog
    refine ⟨?_, ?_, ?_⟩
    · intro h
      unfold validate
      simp [h]
    · intro h
      have hinv : (extractSelectors code).filter (fun s => !knownValid catalog s) = [] := h
      unfold validate
      simp [hinv]
    · intro h
      have hinv : (extractSelectors code).filter (fun s => !knownValid catalog s) ≠ [] := h
      have hused : extractSelectors code ≠ [] := by
        intro hu
        exact hinv (by simp [hu])
      unfold validate
      simp only
      rw [if_neg]
      simp only [Bool.or_eq_true, List.isEmpty_iff, not_or]
      exact ⟨hused, hinv⟩
  · have hext : extractSelectors
        "var a = document.querySelector(\".sel-ok\"); var b = document.querySelector(\".sel-bad\");"
        = [".sel-ok", ".sel-bad"] := by decide
    have hfil1 : List.filter
        (fun s => !knownValid
          [{ selector := ".sel-ok", page_type := "pdp", status := .active }] s)
        [".sel-ok", ".sel-bad"] = [".sel-bad"] := by decide
    have hfil2 : List.filter
        (knownValid [{ selector := ".sel-ok", page_type := "pdp", status := .active }])
        [".sel-ok", ".sel-bad"] = [".sel-ok"] := by decide
    unfold validate
    rw [hext]
    dsimp only
    rw [hfil1, hfil2]
    rw [if_neg (by decide)]
    simp only [Prod.mk.injEq]
    refine ⟨trivial, trivial, ?_⟩
    norm_num

/-- C5, witness: code with no DOM-query call sites extracts no selectors, and
the validator gives it the full selector credit 0.3. -/
theorem selectorValidator_score_witness :
    (validate "var total = price + tax;" []).2.2 = 3/10 :=
  (selectorValidator_score.1 "var total = price + tax;" []).1 (by decide)

/-! ### ConfidenceScorer (C3, C6)

The ConfidenceScorer runs in the backend, which is not part of the sources
under src/ (the frontend only displays the persisted breakdown, e.g.
src/frontend/src/components/chat/ConfidenceScoreBreakdown.tsx); it is
modelled from the specification, §4.4 and §3 ConfidenceBreakdown. -/

/-- Modelled from the spec: the validation status of a breakdown produced by
the missing backend ConfidenceScorer (§4.4): `passed`, `failed` or
`warning`. -/
inductive ValidationStatus where
  | passed
  | failed
  | warning
deriving DecidableEq

/-- Modelled from the spec: the recommendation tier of a breakdown produced
by the missing backend ConfidenceScorer (§4.4). -/
inductive Recommendation where
  | safe_to_use
  | review_carefully
  | needs_fixes
deriving DecidableEq

/-- Modelled from the spec: the ConfidenceBreakdown record (§3) produced by
the missing backend ConfidenceScorer. -/
structure ConfidenceBreakdown where
  template_score : ℚ
  rule_score : ℚ
  selector_score : ℚ
  overall_score : ℚ
  rule_violations : List String
  invalid_selectors : List String
  is_valid : Bool
  validation_status : ValidationStatus
  recommendation : Recommendation
deriving DecidableEq

/-- Modelled from the spec: the missing backend ConfidenceScorer (§4.4).
It receives the three sub-scores, the violated rules and the invalid
selectors; `overall_score` is the exact sum of the sub-scores; `is_valid`
holds iff there is no violation and no invalid selector; `validation_status`
is `passed` when valid, `failed` when some violated rule has priority ≥ 8,
`warning` otherwise; the recommendation is `safe_to_use` when the overall
score is at least 0.8 and the code is valid, `needs_fixes` when the overall
score is below 0.6 or validation failed, `review_carefully` otherwise, with
the thresholds 0.8 and 0.6 fixed constants. -/
def confidenceScore (template_score rule_score selector_score : ℚ)
    (violated : List CodeRule) (invalid_selectors : List String) : ConfidenceBreakdown :=
  let ok := violated.isEmpty && invalid_selectors.isEmpty
  let overall := template_score + rule_score + selector_score
  let vstatus :=
    if ok = true then ValidationStatus.passed
    else if violated.any (fun r => decide (8 ≤ r.priority)) then ValidationStatus.failed
    else ValidationStatus.warning
  let recommend :=
    if 4/5 ≤ overall ∧ ok = true then Recommendation.safe_to_use
    else if overall < 3/5 ∨ vstatus = ValidationStatus.failed then Recommendation.needs_fixes
    else Recommendation.review_carefully
  { template_score := template_score, rule_score := rule_score,
    selector_score := selector_score, overall_score := overall,
    rule_violations := violated.map (fun r => r.rule_content),
    invalid_selectors := invalid_selectors, is_valid := ok,
    validation_status := vstatus, recommendation := recommend }

/-- Modelled from the spec: the persisted generated-code row as the outbound
write of §6 produces it — its `confidence_score` column together with the
breakdown it came from (§3: `confidence_score` always equals
`confidence_breakdown.overall_score`). -/
structure ScoredRecord where
  confidence_score : ℚ
  confidence_breakdown : ConfidenceBreakdown
deriving DecidableEq

/-- Modelled from the spec: persisting a breakdown on the code record (§2
data flow: the breakdown is "persisted on the code record" with the
`confidence_score` set from it). -/
def persistBreakdown (b : ConfidenceBreakdown) : ScoredRecord :=
  { confidence_score := b.overall_score, confidence_breakdown := b }

/-- C3: the overall score of every breakdown is exactly the sum of the three
sub-scores; within the sub-score ranges it lies in `[0,1]`; and the persisted
confidence score of the persisted record equals the overall score of its
breakdown. -/
theorem confidenceScorer_overall (t r s : ℚ) (violated : List CodeRule)
    (inv : List String) (ht0 : 0 ≤ t) (ht1 : t ≤ 3/10) (hr0 : 0 ≤ r)
    (hr1 : r ≤ 2/5) (hs0 : 0 ≤ s) (hs1 : s ≤ 3/10) :
    (confidenceScore t r s violated inv).overall_score = t + r + s
    ∧ 0 ≤ (confidenceScore t r s violated inv).overall_score
    ∧ (confidenceScore t r s violated inv).overall_score ≤ 1
    ∧ (persistBreakdown (confidenceScore t r s violated inv)).confidence_score
        = (persistBreakdown (confidenceScore t r s violated inv)).confidence_breakdown.overall_score := by
  have hov : (confidenceScore t r s violated inv).overall_score = t + r + s := rfl
  refine ⟨hov, ?_, ?_, rfl⟩
  · rw [hov]
    linarith
  · rw [hov]
    linarith

/-- C3, witness: at the maximal sub-scores 0.3, 0.4, 0.3 the overall score is
their exact sum, lies in `[0,1]`, and is what the record stores. -/
theorem confidenceScorer_overall_witness :
    ((0:ℚ) ≤ 3/10 ∧ (3/10:ℚ) ≤ 3/10 ∧ (0:ℚ) ≤ 2/5 ∧ (2/5:ℚ) ≤ 2/5)
    ∧ ((confidenceScore (3/10) (2/5) (3/10) [] []).overall_score = 3/10 + 2/5 + 3/10
      ∧ 0 ≤ (confidenceScore (3/10) (2/5) (3/10) [] []).overall_score
      ∧ (confidenceScore (3/10) (2/5) (3/10) [] []).overall_score ≤ 1
      ∧ (persistBreakdown (confidenceScore (3/10) (2/5) (3/10) [] [])).confidence_score
          = (persistBreakdown
              (confidenceScore (3/10) (2/5) (3/10) [] [])).confidence_breakdown.overall_score) :=
  ⟨by norm_num,
   confidenceScorer_overall (3/10) (2/5) (3/10) [] [] (by norm_num) (by norm_num)
     (by norm_num) (by norm_num) (by norm_num) (by norm_num)⟩

/-- Modelled from the spec: the §2 data-flow composition feeding the rule
outputs of the rule engine for a code string into the scorer, with the template and
selector results supplied as parameters (the three validators run
independently). -/
def scoreGenerated (code : String) (rules : List CodeRule)
    (template_score selector_score : ℚ) (invalid_selectors : List String) :
    ConfidenceBreakdown :=
  confidenceScore template_score (ruleScore code rules) selector_score
    (violatedRulesOf code rules) invalid_selectors

/-- The priority-10 `forbidden_pattern` rule of the C6 scenario. -/
def forbiddenWriteRule : CodeRule :=
  { rule_type := .forbidden_pattern, rule_content := "document.write(", priority := 10 }

/-- C6: the recommendation is `safe_to_use` exactly when the overall score is
at least 0.8 and the breakdown is valid; it is `needs_fixes` whenever the
overall score is below 0.6 or validation failed, and `review_carefully` in
the remaining cases; and with a violated priority-10 `forbidden_pattern` rule
as the sole active rule, the rule score is 0, validation fails and the
recommendation is `needs_fixes` whatever the other sub-scores and selector
results are. -/
theorem recommendation_tiers :
    (∀ (t r s : ℚ) (violated : List CodeRule) (inv : List String),
      ((confidenceScore t r s violated inv).recommendation = .safe_to_use
        ↔ (4/5 ≤ (confidenceScore t r s violated inv).overall_score
          ∧ (confidenceScore t r s violated inv).is_valid = true))
      ∧ ((confidenceScore t r s violated inv).overall_score < 3/5
          ∨ (confidenceScore t r s violated inv).validation_status = .failed →
        (confidenceScore t r s violated inv).recommendation = .needs_fixes)
      ∧ (¬(4/5 ≤ (confidenceScore t r s violated inv).overall_score
            ∧ (confidenceScore t r s violated inv).is_valid = true)
          ∧ ¬((confidenceScore t r s violated inv).overall_score < 3/5
            ∨ (confidenceScore t r s violated inv).validation_status = .failed) →
        (confidenceScore t r s violated inv).recommendation = .review_carefully))
    ∧ (∀ (t s : ℚ) (inv : List String),
      (scoreGenerated "document.write(x)" [forbiddenWriteRule] t s inv).rule_score = 0
      ∧ (scoreGenerated "document.write(x)" [forbiddenWriteRule] t s inv).validation_status
          = .failed
      ∧ (scoreGenerated "document.write(x)" [forbiddenWriteRule] t s inv).recommendation
          = .needs_fixes) := by
  have hrec : ∀ (t r s : ℚ) (violated : List CodeRule) (inv : List String),
      (confidenceScore t r s violated inv).recommendation
        = (if 4/5 ≤ (confidenceScore t r s violated inv).overall_score
              ∧ (confidenceScore t r s violated inv).is_valid = true
           then Recommendation.safe_to_use
           else if (confidenceScore t r s violated inv).overall_score < 3/5
              ∨ (confidenceScore t r s violated inv).validation_status
                  = ValidationStatus.failed
           then Recommendation.needs_fixes
           else Recommendation.review_carefully) :=
    fun t r s violated inv => rfl
  have hvalid_passed : ∀ (t r s : ℚ) (violated : List CodeRule) (inv : List String),
      (confidenceScore t r s violated inv).is_valid = true →
      (confidenceScore t r s violated inv).validation_status = ValidationStatus.passed := by
    intro t r s violated inv hv
    have : (confidenceScore t r s violated inv).validation_status
        = (if (confidenceScore t r s violated inv).is_valid = true
           then ValidationStatus.passed
           else if violated.any (fun r => decide (8 ≤ r.priority)) then ValidationStatus.failed
           else ValidationStatus.warning) := rfl
    rw [this, if_pos hv]
  constructor
  · intro t r s violated inv
    refine ⟨?_, ?_, ?_⟩
    · rw [hrec]
      constructor
      · intro hsafe
        by_cases h1 : 4/5 ≤ (confidenceScore t r s violated inv).overall_score
            ∧ (confidenceScore t r s violated inv).is_valid = true
        · exact h1
        · rw [if_neg h1] at hsafe
          split at hsafe <;> simp at hsafe
      · intro h1
        rw [if_pos h1]
    · intro h2
      rw [hrec]
      rw [if_neg, if_pos h2]
      rintro ⟨hov, hv⟩
      rcases h2 with h2 | h2
      · linarith
      · rw [hvalid_passed t r s violated inv hv] at h2
        exact ValidationStatus.noConfusion h2
    · rintro ⟨h1, h2⟩
      rw [hrec, if_neg h1, if_neg h2]
  · intro t s inv
    have hviol : violatedRulesOf "document.write(x)" [forbiddenWriteRule]
        = [forbiddenWriteRule] := by decide
    have hscored : scoredRules "document.write(x)" [forbiddenWriteRule]
        = [forbiddenWriteRule] := by decide
    have hscore : ruleScore "document.write(x)" [forbiddenWriteRule] = 0 := by
      unfold ruleScore
      rw [hviol, hscored]
      have hsum : prioritySum [forbiddenWriteRule] = 10 := by
        simp [prioritySum, priorityQ, forbiddenWriteRule]
      rw [hsum]
      simp [rulePenalty, priorityQ, forbiddenWriteRule]
    unfold scoreGenerated
    rw [hviol, hscore]
    refine ⟨rfl, ?_, ?_⟩
    · have : (confidenceScore t 0 s [forbiddenWriteRule] inv).validation_status
          = (if ([forbiddenWriteRule].isEmpty && inv.isEmpty) = true
             then ValidationStatus.passed
             else if [forbiddenWriteRule].any (fun r => decide (8 ≤ r.priority))
             then ValidationStatus.failed
             else ValidationStatus.warning) := rfl
      rw [this, if_neg (by simp [forbiddenWriteRule]), if_pos (by decide)]
    · rw [hrec]
      rw [if_neg, if_pos]
      · right
        have : (confidenceScore t 0 s [forbiddenWriteRule] inv).validation_status
            = (if ([forbiddenWriteRule].isEmpty && inv.isEmpty) = true
               then ValidationStatus.passed
               else if [forbiddenWriteRule].any (fun r => decide (8 ≤ r.priority))
               then ValidationStatus.failed
               else ValidationStatus.warning) := rfl
        rw [this, if_neg (by simp [forbiddenWriteRule]), if_pos (by decide)]
      · rintro ⟨hov, hv⟩
        have : (confidenceScore t 0 s [forbiddenWriteRule] inv).is_valid
            = ([forbiddenWriteRule].isEmpty && inv.isEmpty) := rfl
        rw [this] at hv
        simp [forbiddenWriteRule] at hv

/-- C6, witness: with all sub-scores 0 and nothing violated, the overall
score 0 is below 0.6 and the recommendation is `needs_fixes`. -/
theorem recommendation_tiers_witness :
    (confidenceScore 0 0 0 [] []).recommendation = .needs_fixes :=
  ((recommendation_tiers.1 0 0 0 [] []).2.1)
    (Or.inl (show ((0:ℚ) + 0 + 0) < 3/5 by norm_num))

end Opal
